import Mathlib

/-!
Verification of the resilient-execution layer of the prm-billing-services
repository: the breaker registry and decorator in
`src/billing_services/utils/circuit_breaker.py`, the exception classes in
`src/billing_services/utils/exceptions.py`, and the feature-creation
conflict handling in
`src/billing_services/clients/metering/openmeter_metering_client.py`.

The circuit-breaker state machine itself lives in the external `aiobreaker`
library, and the asynchronous resilient wrapper
(`billing_services.utils.resilient.with_resilient_execution`) together with
the error classifier (`billing_services.utils.openmeter_error_handler`) are
imported by the repository but their modules are not present in the source
tree; those parts are modelled from the specification, as marked on each
definition.
-/

deriving instance DecidableEq for Except

namespace BillingServices

/-- Failure-origin classification of a raised error, from the data model of the
spec: timeout, connection error, server (5xx) response, conflict
("already exists"), resource-not-found, or unclassified exception. -/
inductive FailureCategory where
  | timeout
  | connectionError
  | serverError
  | conflict
  | notFound
  | unclassified
deriving DecidableEq, Repr

/-- Python exception values that can travel through this layer, embedded from
`src/billing_services/utils/exceptions.py`: `ExternalServiceException`
(status 502, error_code EXTERNAL_SERVICE_ERROR, optional service_name),
`ResourceNotFoundException` (status 404, error_code RESOURCE_NOT_FOUND), and
any other raised exception as `raw` with its origin category and message. -/
inductive PyExc where
  | ExternalServiceException (detail : String) (service_name : Option String)
  | ResourceNotFoundException (detail : String)
  | raw (category : FailureCategory) (msg : String)
deriving DecidableEq, Repr

/-- The `error_code` attribute set by the exception constructors in
`exceptions.py`; a raw exception carries none. -/
def PyExc.errorCode : PyExc → Option String
  | .ExternalServiceException _ _ => some "EXTERNAL_SERVICE_ERROR"
  | .ResourceNotFoundException _ => some "RESOURCE_NOT_FOUND"
  | .raw _ _ => none

/-- The `status_code` attribute set by the exception constructors in
`exceptions.py`; a raw exception carries none. -/
def PyExc.statusCode : PyExc → Option Nat
  | .ExternalServiceException _ _ => some 502
  | .ResourceNotFoundException _ => some 404
  | .raw _ _ => none

/-- Python `str(e)`: the human-readable message of an exception (the
constructors in `exceptions.py` pass `detail` to `Exception.__init__`). -/
def PyExc.msgStr : PyExc → String
  | .ExternalServiceException d _ => d
  | .ResourceNotFoundException d => d
  | .raw _ m => m

/-- The three breaker states of the state machine in the spec
(Closed, Open, Half-Open). -/
inductive CircuitState where
  | closed
  | opened
  | halfOpen
deriving DecidableEq, Repr

/-- A circuit breaker as constructed by `get_circuit_breaker`
(`circuit_breaker.py` lines 29-33): a name, the `fail_max` threshold and
`timeout_duration` fixed at construction, plus the mutable state machine
fields. `openedAt` is the time (in seconds) of the transition to Open and is
meaningful only while the breaker is open. -/
structure CircuitBreaker where
  name : String
  failMax : Nat
  timeoutDuration : Nat
  failCounter : Nat
  state : CircuitState
  openedAt : Nat
deriving DecidableEq, Repr

/-- The breaker built on first access for a service name:
`aiobreaker.CircuitBreaker(name=service_name, fail_max=3,
timeout_duration=timedelta(seconds=30))`, starting Closed with a zero
failure counter. -/
def newCircuitBreaker (service_name : String) : CircuitBreaker :=
  { name := service_name
    failMax := 3
    timeoutDuration := 30
    failCounter := 0
    state := .closed
    openedAt := 0 }

/-- The module-level registry `_circuit_breakers : Dict[str, CircuitBreaker]`,
embedded as an association list from service name to breaker. -/
abbrev Registry := List (String × CircuitBreaker)

/-- Dictionary lookup (`service_name in _circuit_breakers` /
`_circuit_breakers[service_name]`). -/
def lookupReg : Registry → String → Option CircuitBreaker
  | [], _ => none
  | (k, b) :: rest, n => if k = n then some b else lookupReg rest n

/-- Function `get_circuit_breaker` (`circuit_breaker.py` lines 23-34): if the name is
absent, construct a breaker with the default threshold and timeout and store
it; return the stored breaker. The result is the updated registry together
with the returned breaker. -/
def get_circuit_breaker (reg : Registry) (service_name : String) :
    Registry × CircuitBreaker :=
  match lookupReg reg service_name with
  | some b => (reg, b)
  | none => ((service_name, newCircuitBreaker service_name) :: reg,
             newCircuitBreaker service_name)

/-- What `breaker.call` produces for the wrapper: the value the operation produced, the
exception the operation raised, or the distinct circuit-open rejection
(`CircuitBreakerError`), which is distinguishable from the failures of the operation
itself. -/
inductive BreakerOutcome (α : Type) where
  | ok (v : α)
  | opFail (e : PyExc)
  | circuitBreakerError
deriving DecidableEq, Repr

/-- Result of running one call through the breaker: the breaker state
afterwards, the outcome handed to the wrapper, and whether the wrapped
operation was actually invoked. -/
structure BreakerCallResult (α : Type) where
  breaker : CircuitBreaker
  outcome : BreakerOutcome α
  invoked : Bool
deriving Repr

/-- An open breaker becomes eligible for a probe once `reset_timeout` has
elapsed since `opened_at`. -/
def eligibleForProbe (b : CircuitBreaker) (now : Nat) : Bool :=
  b.openedAt + b.timeoutDuration ≤ now

/-- Modelled from the spec: `breaker.call` of the external `aiobreaker`
library (whose source is not in the repository), following the three-state
machine of the spec. Closed: invoke; success resets the counter to 0,
failure increments it and trips to Open (recording `opened_at = now`) when
the counter reaches `fail_max`. Open: before the reset timeout the call is
rejected with the circuit-open condition without invoking the operation;
after it, the breaker moves to Half-Open and the call proceeds as the single
probe. Half-Open: invoke; success closes the breaker and resets the counter,
failure reopens it and restarts the timeout window. -/
def breakerCall {α : Type} (b : CircuitBreaker) (now : Nat)
    (op : Unit → Except PyExc α) : BreakerCallResult α :=
  match b.state with
  | .closed =>
    match op () with
    | .ok v => ⟨{ b with failCounter := 0 }, .ok v, true⟩
    | .error e =>
      if b.failMax ≤ b.failCounter + 1 then
        ⟨{ b with failCounter := b.failCounter + 1, state := .opened,
                  openedAt := now },
         .opFail e, true⟩
      else
        ⟨{ b with failCounter := b.failCounter + 1 }, .opFail e, true⟩
  | .opened =>
    if eligibleForProbe b now then
      match op () with
      | .ok v =>
        ⟨{ b with state := .closed, failCounter := 0 }, .ok v, true⟩
      | .error e =>
        ⟨{ b with state := .opened, openedAt := now }, .opFail e, true⟩
    else
      ⟨b, .circuitBreakerError, false⟩
  | .halfOpen =>
    match op () with
    | .ok v => ⟨{ b with state := .closed, failCounter := 0 }, .ok v, true⟩
    | .error e => ⟨{ b with state := .opened, openedAt := now }, .opFail e, true⟩

/-- Result of one invocation of a wrapped function: the breaker afterwards,
what the caller receives (a value or a raised exception), and whether the
wrapped operation was invoked. -/
structure WrapperResult (α : Type) where
  breaker : CircuitBreaker
  result : Except PyExc α
  invoked : Bool
deriving Repr

/-- The message of the standardized unavailability failure raised by the
wrapper: the f-string interpolating the service name into a currently-unavailable message. -/
def unavailableDetail (service_name : String) : String :=
  "Service " ++ service_name ++ " is currently unavailable"

/-- One invocation of the `wrapper` closure produced by
`with_circuit_breaker(service_name, fallback_value)` applied to `func`
(`circuit_breaker.py` lines 37-58): run `breaker.call(func, ...)`; on
`CircuitBreakerError` return `fallback_value` when it `is not None`
(`none` here embeds Python `None`), otherwise raise
an `ExternalServiceException` whose detail is the unavailability message naming the service and whose service_name field is the dependency name; any exception raised by the
operation itself propagates unchanged. -/
def with_circuit_breaker_call {α : Type} (service_name : String)
    (fallback_value : Option α) (b : CircuitBreaker) (now : Nat)
    (op : Unit → Except PyExc α) : WrapperResult α :=
  let r := breakerCall b now op
  match r.outcome with
  | .ok v => ⟨r.breaker, .ok v, r.invoked⟩
  | .opFail e => ⟨r.breaker, .error e, r.invoked⟩
  | .circuitBreakerError =>
    match fallback_value with
    | some v => ⟨r.breaker, .ok v, r.invoked⟩
    | none =>
      ⟨r.breaker,
       .error (.ExternalServiceException (unavailableDetail service_name)
                 (some service_name)),
       r.invoked⟩

/-- In Python the decorator parameter `fallback_value: Optional[Any] = None`
may be omitted by the caller or passed explicitly; the outer layer of the
option records whether the call site supplied the argument, and an omitted
argument takes the declared default `None`. -/
def resolveFallbackArg {α : Type} (supplied : Option (Option α)) : Option α :=
  supplied.getD none

/-- Disposition produced by the error classifier for a raised operation
failure, from the spec: re-raise unchanged, raise a translated standardized
external-service failure, or return a recoverable default value instead of
raising. -/
inductive Disposition (α : Type) where
  | passThrough (e : PyExc)
  | translate (e : PyExc)
  | recoverableDefault (v : α)
deriving DecidableEq, Repr

/-- Modelled from the spec: the error classifier of
`billing_services.utils.openmeter_error_handler` (imported by the repository
but absent from the source tree). Connectivity, timeout and 5xx-class
failures are translated into the standardized `ExternalServiceException`
carrying the dependency name and the original message; a conflict with a
configured recoverable default returns that default; a not-found condition
is surfaced as the benign `ResourceNotFoundException`; anything else passes
through unchanged. -/
def classifyError {α : Type} (service_name : String)
    (recoverable_default : Option α) (e : PyExc) : Disposition α :=
  match e with
  | .raw .timeout m =>
    .translate (.ExternalServiceException
      ("Error calling " ++ service_name ++ ": " ++ m) (some service_name))
  | .raw .connectionError m =>
    .translate (.ExternalServiceException
      ("Error calling " ++ service_name ++ ": " ++ m) (some service_name))
  | .raw .serverError m =>
    .translate (.ExternalServiceException
      ("Error calling " ++ service_name ++ ": " ++ m) (some service_name))
  | .raw .conflict m =>
    match recoverable_default with
    | some v => .recoverableDefault v
    | none =>
      .translate (.ExternalServiceException
        ("Error calling " ++ service_name ++ ": " ++ m) (some service_name))
  | .raw .notFound m => .passThrough (.ResourceNotFoundException m)
  | e => .passThrough e

/-- Modelled from the spec: one invocation of the asynchronous resilient
wrapper `billing_services.utils.resilient.with_resilient_execution`
(imported by the repository but absent from the source tree), following the
wrapper algorithm of the spec. Resolve the breaker; when it is open and not yet
eligible for probing, return the fallback if configured and otherwise raise
the standardized unavailability failure naming the dependency, without
invoking the operation; otherwise invoke the operation under the breaker
(which records the success or failure) and, on failure, propagate whatever
the error classifier produces. -/
def with_resilient_execution_call {α : Type} (service_name : String)
    (fallback_value : Option α) (recoverable_default : Option α)
    (b : CircuitBreaker) (now : Nat) (op : Unit → Except PyExc α) :
    WrapperResult α :=
  let r := breakerCall b now op
  match r.outcome with
  | .ok v => ⟨r.breaker, .ok v, r.invoked⟩
  | .circuitBreakerError =>
    match fallback_value with
    | some v => ⟨r.breaker, .ok v, r.invoked⟩
    | none =>
      ⟨r.breaker,
       .error (.ExternalServiceException (unavailableDetail service_name)
                 (some service_name)),
       r.invoked⟩
  | .opFail e =>
    match classifyError service_name recoverable_default e with
    | .passThrough e2 => ⟨r.breaker, .error e2, r.invoked⟩
    | .translate e2 => ⟨r.breaker, .error e2, r.invoked⟩
    | .recoverableDefault v => ⟨r.breaker, .ok v, r.invoked⟩

/-- The Python substring operator `sub in s`, as containment of character
sequences. -/
def strContains (s sub : String) : Bool :=
  decide (sub.toList <:+: s.toList)

/-- The inner `_create_feature` exception handling of
`OpenMeterMeteringClient.create_feature`
(`openmeter_metering_client.py` lines 258-273), applied to the outcome of
`self.client.create_feature(feature_data)`: an exception `e` with both
`"Conflict" in str(e)` and `"already exists" in str(e)` is logged and
swallowed (the method returns normally); any other exception is re-raised. -/
def create_feature_handle (res : Except PyExc Unit) : Except PyExc Unit :=
  match res with
  | .ok _ => .ok ()
  | .error e =>
    if strContains e.msgStr "Conflict" && strContains e.msgStr "already exists"
    then .ok ()
    else .error e

/-- Repeatedly run the wrapped function through the wrapper with failing
operations, threading the breaker state; each list entry is the time of the
call and the exception its operation raises. -/
def iterateFailCalls {α : Type} (service_name : String)
    (fallback_value : Option α) (b : CircuitBreaker) :
    List (Nat × PyExc) → CircuitBreaker
  | [] => b
  | (t, e) :: rest =>
    iterateFailCalls service_name fallback_value
      (with_circuit_breaker_call service_name fallback_value b t
        (fun _ => .error e)).breaker rest

/-- A breaker that is open and whose reset timeout has not yet elapsed
rejects the call with the circuit-open condition without invoking the
operation and without changing its state. -/
theorem breakerCall_open_not_eligible {α : Type} (b : CircuitBreaker)
    (now : Nat) (op : Unit → Except PyExc α) (hopen : b.state = .opened)
    (hnot : now < b.openedAt + b.timeoutDuration) :
    breakerCall b now op = ⟨b, .circuitBreakerError, false⟩ := by
  have he : eligibleForProbe b now = false := by
    simp only [eligibleForProbe, decide_eq_false_iff_not, Nat.not_le]
    omega
  simp [breakerCall, hopen, he]

/-- On an open, not-yet-eligible breaker the wrapper does not invoke the
operation, returns a configured fallback, and raises the standardized
unavailability failure when no fallback is configured. -/
theorem wrapper_call_open_spec {α : Type} (service_name : String)
    (fallback_value : Option α) (b : CircuitBreaker) (now : Nat)
    (op : Unit → Except PyExc α) (hopen : b.state = .opened)
    (hnot : now < b.openedAt + b.timeoutDuration) :
    (with_circuit_breaker_call service_name fallback_value b now op).invoked
      = false ∧
    (∀ v, fallback_value = some v →
      (with_circuit_breaker_call service_name fallback_value b now op).result
        = .ok v) ∧
    (fallback_value = none →
      (with_circuit_breaker_call service_name fallback_value b now op).result
        = .error (.ExternalServiceException (unavailableDetail service_name)
                    (some service_name))) ∧
    (with_circuit_breaker_call service_name fallback_value b now op).breaker
      = b := by
  have h := breakerCall_open_not_eligible b now op hopen hnot
  simp only [with_circuit_breaker_call, h]
  cases fallback_value <;> simp

/-- C1: while the breaker for the named dependency is open and not yet
eligible for probing, every call through the wrapper leaves the wrapped
operation uninvoked; the wrapper returns the configured fallback value if
one was supplied, and otherwise raises the standardized unavailability
failure whose message and service_name field name that dependency. -/
theorem wrapper_open_fail_fast {α : Type} (service_name : String)
    (fallback_value : Option α) (b : CircuitBreaker) (now : Nat)
    (op : Unit → Except PyExc α) (hopen : b.state = .opened)
    (hnot : now < b.openedAt + b.timeoutDuration) :
    (with_circuit_breaker_call service_name fallback_value b now op).invoked
      = false ∧
    (∀ v, fallback_value = some v →
      (with_circuit_breaker_call service_name fallback_value b now op).result
        = .ok v) ∧
    (fallback_value = none →
      (with_circuit_breaker_call service_name fallback_value b now op).result
        = .error (.ExternalServiceException (unavailableDetail service_name)
                    (some service_name))) :=
  have h := wrapper_call_open_spec service_name fallback_value b now op
    hopen hnot
  ⟨h.1, h.2.1, h.2.2.1⟩

/-- Witness for C1 at a concrete open breaker (opened at time 5, probed at
time 10, reset timeout 30), once with fallback 42 and once without. -/
theorem wrapper_open_fail_fast_witness :
    (with_circuit_breaker_call "OpenMeter" (some 42)
      ⟨"OpenMeter", 3, 30, 3, .opened, 5⟩ 10 (fun _ => .ok 0)).result
      = .ok 42 ∧
    (with_circuit_breaker_call "OpenMeter" (none : Option Nat)
      ⟨"OpenMeter", 3, 30, 3, .opened, 5⟩ 10 (fun _ => .ok 0)).invoked
      = false ∧
    (with_circuit_breaker_call "OpenMeter" (none : Option Nat)
      ⟨"OpenMeter", 3, 30, 3, .opened, 5⟩ 10 (fun _ => .ok 0)).result
      = .error (.ExternalServiceException (unavailableDetail "OpenMeter")
                  (some "OpenMeter")) := by
  have h1 := wrapper_open_fail_fast "OpenMeter" (some 42)
    ⟨"OpenMeter", 3, 30, 3, .opened, 5⟩ 10 (fun _ => .ok 0) rfl (by decide)
  have h2 := wrapper_open_fail_fast "OpenMeter" (none : Option Nat)
    ⟨"OpenMeter", 3, 30, 3, .opened, 5⟩ 10 (fun _ => .ok 0) rfl (by decide)
  exact ⟨h1.2.1 42 rfl, h2.1, h2.2.2 rfl⟩

/-- C10: a fallback value of Python None can never be configured: whether
the call site passes fallback_value = None explicitly or omits the argument,
the resolved fallback is None, and on an open (not yet eligible) breaker the
wrapper raises the standardized unavailability failure instead of returning
None, so an explicit None fallback is indistinguishable from no fallback. -/
theorem wrapper_none_fallback_indistinguishable {α : Type}
    (supplied : Option (Option α)) (service_name : String)
    (b : CircuitBreaker) (now : Nat) (op : Unit → Except PyExc α)
    (hsup : supplied = none ∨ supplied = some none)
    (hopen : b.state = .opened)
    (hnot : now < b.openedAt + b.timeoutDuration) :
    resolveFallbackArg supplied = none ∧
    (with_circuit_breaker_call service_name (resolveFallbackArg supplied)
      b now op).result
      = .error (.ExternalServiceException (unavailableDetail service_name)
                  (some service_name)) ∧
    (with_circuit_breaker_call service_name (resolveFallbackArg supplied)
      b now op).invoked = false := by
  have hres : resolveFallbackArg supplied = none := by
    rcases hsup with h | h <;> subst h <;> rfl
  have h := wrapper_call_open_spec service_name
    (resolveFallbackArg supplied) b now op hopen hnot
  exact ⟨hres, h.2.2.1 hres, h.1⟩

/-- Witness for C10: the explicit-None and omitted-argument decorations of a
concrete open breaker both raise the unavailability failure. -/
theorem wrapper_none_fallback_indistinguishable_witness :
    resolveFallbackArg (some (none : Option Nat)) = none ∧
    (with_circuit_breaker_call "OpenMeter"
      (resolveFallbackArg (some (none : Option Nat)))
      ⟨"OpenMeter", 3, 30, 3, .opened, 5⟩ 10 (fun _ => .ok 7)).result
      = .error (.ExternalServiceException (unavailableDetail "OpenMeter")
                  (some "OpenMeter")) ∧
    (with_circuit_breaker_call "OpenMeter"
      (resolveFallbackArg (none : Option (Option Nat)))
      ⟨"OpenMeter", 3, 30, 3, .opened, 5⟩ 10 (fun _ => .ok 7)).invoked
      = false := by
  have h1 := wrapper_none_fallback_indistinguishable
    (some (none : Option Nat)) "OpenMeter"
    ⟨"OpenMeter", 3, 30, 3, .opened, 5⟩ 10 (fun _ => .ok 7)
    (Or.inr rfl) rfl (by decide)
  have h2 := wrapper_none_fallback_indistinguishable
    (none : Option (Option Nat)) "OpenMeter"
    ⟨"OpenMeter", 3, 30, 3, .opened, 5⟩ 10 (fun _ => .ok 7)
    (Or.inl rfl) rfl (by decide)
  exact ⟨h1.1, h1.2.1, h2.2.2⟩

/-- A failing operation run on a closed breaker: the exception propagates
unchanged out of the wrapper, the operation was invoked, and the breaker
records the failure, tripping to Open when the counter reaches the
threshold. -/
theorem wrapper_closed_fail {α : Type} (service_name : String)
    (fallback_value : Option α) (b : CircuitBreaker) (now : Nat) (e : PyExc)
    (hst : b.state = .closed) :
    (with_circuit_breaker_call service_name fallback_value b now
      (fun _ => .error e)).result = .error e ∧
    (with_circuit_breaker_call service_name fallback_value b now
      (fun _ => .error e)).invoked = true ∧
    (with_circuit_breaker_call service_name fallback_value b now
      (fun _ => .error e)).breaker
      = (if b.failMax ≤ b.failCounter + 1 then
           { b with failCounter := b.failCounter + 1, state := .opened,
                    openedAt := now }
         else { b with failCounter := b.failCounter + 1 }) := by
  by_cases h : b.failMax ≤ b.failCounter + 1 <;>
    simp [with_circuit_breaker_call, breakerCall, hst, h]

/-- C6 counterexample: a run rejected fail-fast (open breaker, no fallback)
and a run whose executed operation failed with the translated
external-service failure raise exceptions with the same stable error code,
EXTERNAL_SERVICE_ERROR, so the two runs do not differ in their stable error
code. -/
theorem wrapper_error_code_counterexample :
    (with_circuit_breaker_call "OpenMeter" (none : Option Nat)
      ⟨"OpenMeter", 3, 30, 3, .opened, 0⟩ 10 (fun _ => .ok 0)).result
      = .error (.ExternalServiceException (unavailableDetail "OpenMeter")
                  (some "OpenMeter")) ∧
    (with_circuit_breaker_call "OpenMeter" (none : Option Nat)
      ⟨"OpenMeter", 3, 30, 0, .closed, 0⟩ 10
      (fun _ => .error (.ExternalServiceException
        "Error calling OpenMeter: connection refused" (some "OpenMeter")))).invoked
      = true ∧
    (with_circuit_breaker_call "OpenMeter" (none : Option Nat)
      ⟨"OpenMeter", 3, 30, 0, .closed, 0⟩ 10
      (fun _ => .error (.ExternalServiceException
        "Error calling OpenMeter: connection refused" (some "OpenMeter")))).result
      = .error (.ExternalServiceException
          "Error calling OpenMeter: connection refused" (some "OpenMeter")) ∧
    (PyExc.ExternalServiceException (unavailableDetail "OpenMeter")
        (some "OpenMeter")).errorCode
      = (PyExc.ExternalServiceException
          "Error calling OpenMeter: connection refused"
          (some "OpenMeter")).errorCode := by
  refine ⟨?_, ?_, ?_, rfl⟩ <;> decide

/-- C6 amended: every fail-fast rejection is surfaced as the typed
ExternalServiceException with the stable error code EXTERNAL_SERVICE_ERROR
and a detail naming the dependency as currently unavailable, while a failure
of the executed operation propagates as the exception the operation raised;
the two runs are distinguished by the detail message and exception identity,
not by a distinct stable error code. -/
theorem wrapper_error_code_amended {α : Type} (service_name : String)
    (fallback_value : Option α) (b bc : CircuitBreaker) (now now2 : Nat)
    (e : PyExc) (op : Unit → Except PyExc α)
    (hopen : b.state = .opened)
    (hnot : now < b.openedAt + b.timeoutDuration)
    (hcl : bc.state = .closed) :
    (with_circuit_breaker_call service_name (none : Option α) b now op).result
      = .error (.ExternalServiceException (unavailableDetail service_name)
                  (some service_name)) ∧
    (PyExc.ExternalServiceException (unavailableDetail service_name)
        (some service_name)).errorCode = some "EXTERNAL_SERVICE_ERROR" ∧
    (with_circuit_breaker_call service_name fallback_value bc now2
      (fun _ => .error e)).result = .error e ∧
    (with_circuit_breaker_call service_name fallback_value bc now2
      (fun _ => .error e)).invoked = true := by
  have h1 := wrapper_call_open_spec service_name (none : Option α) b now op
    hopen hnot
  have h2 := wrapper_closed_fail service_name fallback_value bc now2 e hcl
  exact ⟨h1.2.2.1 rfl, rfl, h2.1, h2.2.1⟩

/-- Witness for the amended C6 on concrete open and closed breakers. -/
theorem wrapper_error_code_amended_witness :
    (with_circuit_breaker_call "OpenMeter" (none : Option Nat)
      ⟨"OpenMeter", 3, 30, 3, .opened, 0⟩ 10 (fun _ => .ok 0)).result
      = .error (.ExternalServiceException (unavailableDetail "OpenMeter")
                  (some "OpenMeter")) ∧
    (with_circuit_breaker_call "OpenMeter" (none : Option Nat)
      ⟨"OpenMeter", 3, 30, 0, .closed, 0⟩ 10
      (fun _ => .error (.raw .connectionError "connection refused"))).result
      = .error (.raw .connectionError "connection refused") := by
  have h := wrapper_error_code_amended "OpenMeter" (none : Option Nat)
    ⟨"OpenMeter", 3, 30, 3, .opened, 0⟩ ⟨"OpenMeter", 3, 30, 0, .closed, 0⟩
    10 10 (.raw .connectionError "connection refused") (fun _ => .ok 0)
    rfl (by decide) rfl
  exact ⟨h.1, h.2.2.1⟩

/-- C2: three (the default failure_threshold) consecutive failures reported
to a breaker in the Closed state with a fresh failure counter transition it
to Open, recording the time of the tripping failure, and the very next call
through the wrapper before the reset timeout is rejected without invoking
the wrapped operation (raising the unavailability failure when no fallback
is configured). -/
theorem breaker_opens_after_threshold_failures {α : Type}
    (service_name : String) (fallback_value : Option α) (b : CircuitBreaker)
    (e1 e2 e3 : PyExc) (t1 t2 t3 t4 : Nat) (op4 : Unit → Except PyExc α)
    (hst : b.state = .closed) (hc : b.failCounter = 0) (hm : b.failMax = 3)
    (ht : t4 < t3 + b.timeoutDuration) :
    (iterateFailCalls service_name fallback_value b
      [(t1, e1), (t2, e2), (t3, e3)]).state = .opened ∧
    (iterateFailCalls service_name fallback_value b
      [(t1, e1), (t2, e2), (t3, e3)]).openedAt = t3 ∧
    (iterateFailCalls service_name fallback_value b
      [(t1, e1), (t2, e2), (t3, e3)]).failCounter = 3 ∧
    (with_circuit_breaker_call service_name fallback_value
      (iterateFailCalls service_name fallback_value b
        [(t1, e1), (t2, e2), (t3, e3)]) t4 op4).invoked = false ∧
    (fallback_value = none →
      (with_circuit_breaker_call service_name fallback_value
        (iterateFailCalls service_name fallback_value b
          [(t1, e1), (t2, e2), (t3, e3)]) t4 op4).result
        = .error (.ExternalServiceException (unavailableDetail service_name)
                    (some service_name))) := by
  obtain ⟨n, fm, td, fc, st, oa⟩ := b
  dsimp only at hst hc hm ht
  subst hst hc hm
  have he : ¬ (t3 + td ≤ t4) := by omega
  cases fallback_value <;>
    simp [iterateFailCalls, with_circuit_breaker_call, breakerCall,
      eligibleForProbe, he]

/-- Witness for C2: a freshly constructed breaker opened by three failures
at times 1, 2, 3 rejects the call at time 10 without invoking it. -/
theorem breaker_opens_after_threshold_failures_witness :
    (iterateFailCalls "OpenMeter" (none : Option Nat)
      (newCircuitBreaker "OpenMeter")
      [(1, .raw .timeout "t"), (2, .raw .timeout "t"),
       (3, .raw .timeout "t")]).state = .opened ∧
    (with_circuit_breaker_call "OpenMeter" (none : Option Nat)
      (iterateFailCalls "OpenMeter" (none : Option Nat)
        (newCircuitBreaker "OpenMeter")
        [(1, .raw .timeout "t"), (2, .raw .timeout "t"),
         (3, .raw .timeout "t")]) 10 (fun _ => .ok 0)).invoked = false := by
  have h := breaker_opens_after_threshold_failures "OpenMeter"
    (none : Option Nat) (newCircuitBreaker "OpenMeter")
    (.raw .timeout "t") (.raw .timeout "t") (.raw .timeout "t")
    1 2 3 10 (fun _ => .ok 0) rfl rfl rfl (by decide)
  exact ⟨h.1, h.2.2.2.1⟩

/-- C3: on every invocation in which the breaker allows the call (Closed,
Half-Open, or Open and eligible for the probe) and the operation raises a
connectivity, timeout or 5xx-class failure, the resilient wrapper invokes
the operation, reports the failure to the breaker (in Closed the counter
increments, opening the breaker at the threshold; in Half-Open or on a
probe the breaker reopens and restarts the timeout window), and surfaces
the classified, standardized external-service failure naming the dependency
rather than the raw exception. -/
theorem resilient_failure_classified {α : Type} (service_name : String)
    (fallback_value recoverable_default : Option α) (b : CircuitBreaker)
    (now : Nat) (cat : FailureCategory) (m : String)
    (hallow : b.state = .closed ∨ b.state = .halfOpen ∨
      (b.state = .opened ∧ eligibleForProbe b now = true))
    (hcat : cat = .timeout ∨ cat = .connectionError ∨ cat = .serverError) :
    (with_resilient_execution_call service_name fallback_value
      recoverable_default b now (fun _ => .error (.raw cat m))).invoked
      = true ∧
    (b.state = .closed →
      (with_resilient_execution_call service_name fallback_value
        recoverable_default b now (fun _ => .error (.raw cat m))).breaker.failCounter
        = b.failCounter + 1 ∧
      (b.failMax ≤ b.failCounter + 1 →
        (with_resilient_execution_call service_name fallback_value
          recoverable_default b now (fun _ => .error (.raw cat m))).breaker.state
          = .opened)) ∧
    (b.state ≠ .closed →
      (with_resilient_execution_call service_name fallback_value
        recoverable_default b now (fun _ => .error (.raw cat m))).breaker.state
        = .opened ∧
      (with_resilient_execution_call service_name fallback_value
        recoverable_default b now (fun _ => .error (.raw cat m))).breaker.openedAt
        = now) ∧
    (with_resilient_execution_call service_name fallback_value
      recoverable_default b now (fun _ => .error (.raw cat m))).result
      = .error (.ExternalServiceException
          ("Error calling " ++ service_name ++ ": " ++ m) (some service_name)) ∧
    (with_resilient_execution_call service_name fallback_value
      recoverable_default b now (fun _ => .error (.raw cat m))).result
      ≠ .error (.raw cat m) := by
  rcases hallow with hst | hst | ⟨hst, helig⟩
  · by_cases h : b.failMax ≤ b.failCounter + 1 <;>
      rcases hcat with hcat | hcat | hcat <;> subst hcat <;>
        simp [with_resilient_execution_call, breakerCall, classifyError,
          hst, h]
  · rcases hcat with hcat | hcat | hcat <;> subst hcat <;>
      simp [with_resilient_execution_call, breakerCall, classifyError, hst]
  · rcases hcat with hcat | hcat | hcat <;> subst hcat <;>
      simp [with_resilient_execution_call, breakerCall, classifyError,
        hst, helig]

/-- Witness for C3: a connection error on a fresh closed breaker is counted
and surfaced as the translated external-service failure, and a timeout on
an eligible probe (breaker opened at time 0, probed at time 60) reopens the
breaker at the probe time and is surfaced translated as well. -/
theorem resilient_failure_classified_witness :
    (with_resilient_execution_call "OpenMeter" (none : Option Nat) none
      (newCircuitBreaker "OpenMeter") 0
      (fun _ => .error (.raw .connectionError "connection refused"))).breaker.failCounter
      = 1 ∧
    (with_resilient_execution_call "OpenMeter" (none : Option Nat) none
      (newCircuitBreaker "OpenMeter") 0
      (fun _ => .error (.raw .connectionError "connection refused"))).result
      = .error (.ExternalServiceException
          "Error calling OpenMeter: connection refused" (some "OpenMeter")) ∧
    (with_resilient_execution_call "OpenMeter" (none : Option Nat) none
      ⟨"OpenMeter", 3, 30, 3, .opened, 0⟩ 60
      (fun _ => .error (.raw .timeout "timed out"))).breaker.state
      = .opened ∧
    (with_resilient_execution_call "OpenMeter" (none : Option Nat) none
      ⟨"OpenMeter", 3, 30, 3, .opened, 0⟩ 60
      (fun _ => .error (.raw .timeout "timed out"))).breaker.openedAt
      = 60 ∧
    (with_resilient_execution_call "OpenMeter" (none : Option Nat) none
      ⟨"OpenMeter", 3, 30, 3, .opened, 0⟩ 60
      (fun _ => .error (.raw .timeout "timed out"))).result
      = .error (.ExternalServiceException
          "Error calling OpenMeter: timed out" (some "OpenMeter")) := by
  have h1 := resilient_failure_classified "OpenMeter" (none : Option Nat)
    none (newCircuitBreaker "OpenMeter") 0 .connectionError
    "connection refused" (Or.inl rfl) (Or.inr (Or.inl rfl))
  have h2 := resilient_failure_classified "OpenMeter" (none : Option Nat)
    none ⟨"OpenMeter", 3, 30, 3, .opened, 0⟩ 60 .timeout "timed out"
    (Or.inr (Or.inr ⟨rfl, by decide⟩)) (Or.inl rfl)
  exact ⟨(h1.2.1 rfl).1, h1.2.2.2.1, (h2.2.2.1 (by decide)).1,
    (h2.2.2.1 (by decide)).2, h2.2.2.2.1⟩

/-- C4: an exception raised while creating a feature is swallowed (the call
returns normally) exactly when its message contains both the substring
"Conflict" and the substring "already exists"; any other exception
propagates out of the inner handler unchanged; and a swallowed conflict
does not count toward the breaker (the wrapped call is reported as a
success, leaving the breaker closed with a zero counter). -/
theorem create_feature_conflict_swallowed (e : PyExc) (b : CircuitBreaker)
    (now : Nat) (hst : b.state = .closed) :
    (create_feature_handle (.error e) = .ok () ↔
      ("Conflict".toList <:+: e.msgStr.toList ∧
       "already exists".toList <:+: e.msgStr.toList)) ∧
    (¬ ("Conflict".toList <:+: e.msgStr.toList ∧
        "already exists".toList <:+: e.msgStr.toList) →
      create_feature_handle (.error e) = .error e) ∧
    (create_feature_handle (.error e) = .ok () →
      (with_resilient_execution_call "OpenMeter" (none : Option Unit) none
        b now (fun _ => create_feature_handle (.error e))).result = .ok () ∧
      (with_resilient_execution_call "OpenMeter" (none : Option Unit) none
        b now (fun _ => create_feature_handle (.error e))).breaker.failCounter
        = 0 ∧
      (with_resilient_execution_call "OpenMeter" (none : Option Unit) none
        b now (fun _ => create_feature_handle (.error e))).breaker.state
        = .closed) := by
  have hcond : (strContains e.msgStr "Conflict"
        && strContains e.msgStr "already exists") = true ↔
      ("Conflict".toList <:+: e.msgStr.toList ∧
       "already exists".toList <:+: e.msgStr.toList) := by
    rw [Bool.and_eq_true, strContains, strContains, decide_eq_true_eq,
      decide_eq_true_eq]
  have hhandle : create_feature_handle (.error e)
      = (if strContains e.msgStr "Conflict"
            && strContains e.msgStr "already exists"
         then Except.ok () else Except.error e) := rfl
  rcases Bool.eq_false_or_eq_true
      (strContains e.msgStr "Conflict"
        && strContains e.msgStr "already exists") with hb | hb
  · have hg := hcond.mp hb
    have hok : create_feature_handle (.error e) = .ok () := by
      rw [hhandle, hb]; simp
    refine ⟨iff_of_true hok hg, fun hno => absurd hg hno, fun _ => ?_⟩
    simp only [hok]
    simp [with_resilient_execution_call, breakerCall, hst]
  · have hng : ¬ ("Conflict".toList <:+: e.msgStr.toList ∧
        "already exists".toList <:+: e.msgStr.toList) := by
      intro hgood
      rw [hcond.mpr hgood] at hb
      cases hb
    have herr : create_feature_handle (.error e) = .error e := by
      rw [hhandle, hb]; simp
    refine ⟨iff_of_false ?_ hng, fun _ => herr, fun hok => ?_⟩
    · rw [herr]; simp
    · rw [herr] at hok; cases hok

/-- Witness for C4: a 409 conflict message is swallowed and leaves a fresh
breaker closed; a bare conflict message without "already exists"
propagates. -/
theorem create_feature_conflict_swallowed_witness :
    create_feature_handle
      (.error (.raw .conflict "409 Conflict: feature already exists"))
      = .ok () ∧
    (with_resilient_execution_call "OpenMeter" (none : Option Unit) none
      (newCircuitBreaker "OpenMeter") 0
      (fun _ => create_feature_handle
        (.error (.raw .conflict "409 Conflict: feature already exists")))).breaker.state
      = .closed ∧
    create_feature_handle (.error (.raw .conflict "409 Conflict"))
      = .error (.raw .conflict "409 Conflict") := by
  have h1 := create_feature_conflict_swallowed
    (.raw .conflict "409 Conflict: feature already exists")
    (newCircuitBreaker "OpenMeter") 0 rfl
  have h2 := create_feature_conflict_swallowed
    (.raw .conflict "409 Conflict") (newCircuitBreaker "OpenMeter") 0 rfl
  have hok : create_feature_handle
      (.error (.raw .conflict "409 Conflict: feature already exists"))
      = .ok () := h1.1.mpr (by decide)
  exact ⟨hok, (h1.2.2 hok).2.2, h2.2.1 (by decide)⟩

/-- Invariant of the registry: every stored breaker carries its key as its
name (get_circuit_breaker always constructs the breaker with
name=service_name). -/
def RegNamesConsistent (reg : Registry) : Prop :=
  ∀ k b0, lookupReg reg k = some b0 → b0.name = k

/-- The breaker returned for a name carries that name. -/
theorem get_circuit_breaker_name (reg : Registry) (n : String)
    (hwf : RegNamesConsistent reg) :
    (get_circuit_breaker reg n).2.name = n := by
  cases hl : lookupReg reg n with
  | some b0 =>
    simp only [get_circuit_breaker, hl]
    exact hwf n b0 hl
  | none => simp [get_circuit_breaker, hl, newCircuitBreaker]

/-- get_circuit_breaker preserves the registry invariant. -/
theorem get_circuit_breaker_consistent (reg : Registry) (n : String)
    (hwf : RegNamesConsistent reg) :
    RegNamesConsistent (get_circuit_breaker reg n).1 := by
  cases hl : lookupReg reg n with
  | some b0 =>
    simp only [get_circuit_breaker, hl]
    exact hwf
  | none =>
    simp only [get_circuit_breaker, hl]
    intro k b0 h
    rw [lookupReg] at h
    by_cases hk : n = k
    · subst hk
      simp at h
      rw [← h, newCircuitBreaker]
    · rw [if_neg hk] at h
      exact hwf k b0 h

/-- C5: the registry is idempotent per name: a first call for an absent name
stores and returns the default-configured breaker; a later call with the
same name returns exactly the stored breaker and leaves the registry
unchanged; after any call the registry maps the name to the returned
breaker; distinct names never yield the same instance; and no existing
entry is ever removed. -/
theorem registry_idempotent_per_name (reg : Registry) (n m : String)
    (hwf : RegNamesConsistent reg) :
    (lookupReg reg n = none →
      get_circuit_breaker reg n
        = ((n, newCircuitBreaker n) :: reg, newCircuitBreaker n)) ∧
    (∀ b0, lookupReg reg n = some b0 →
      get_circuit_breaker reg n = (reg, b0)) ∧
    lookupReg (get_circuit_breaker reg n).1 n
      = some (get_circuit_breaker reg n).2 ∧
    (n ≠ m → (get_circuit_breaker (get_circuit_breaker reg n).1 m).2
      ≠ (get_circuit_breaker reg n).2) ∧
    (∀ k b0, lookupReg reg k = some b0 →
      lookupReg (get_circuit_breaker reg n).1 k = some b0) := by
  refine ⟨?_, ?_, ?_, ?_, ?_⟩
  · intro h
    simp [get_circuit_breaker, h]
  · intro b0 h
    simp [get_circuit_breaker, h]
  · cases hl : lookupReg reg n with
    | some b0 => simp [get_circuit_breaker, hl]
    | none => simp [get_circuit_breaker, hl, lookupReg]
  · intro hne heq
    have h1 := get_circuit_breaker_name reg n hwf
    have h2 := get_circuit_breaker_name (get_circuit_breaker reg n).1 m
      (get_circuit_breaker_consistent reg n hwf)
    rw [heq, h1] at h2
    exact hne h2
  · intro k b0 h
    cases hl : lookupReg reg n with
    | some b1 => simpa [get_circuit_breaker, hl] using h
    | none =>
      simp only [get_circuit_breaker, hl, lookupReg]
      by_cases hk : n = k
      · subst hk
        rw [hl] at h
        cases h
      · rw [if_neg hk]
        exact h

/-- Witness for C5 on the empty registry with the names OpenMeter and
Stripe. -/
theorem registry_idempotent_per_name_witness :
    get_circuit_breaker [] "OpenMeter"
      = ([("OpenMeter", newCircuitBreaker "OpenMeter")],
         newCircuitBreaker "OpenMeter") ∧
    (get_circuit_breaker (get_circuit_breaker [] "OpenMeter").1 "Stripe").2
      ≠ (get_circuit_breaker [] "OpenMeter").2 := by
  have h := registry_idempotent_per_name [] "OpenMeter" "Stripe"
    (fun k b0 hk => by cases hk)
  exact ⟨h.1 rfl, h.2.2.2.1 (by decide)⟩

/-- The breaker state machine never touches the configuration fields: one
call through the breaker preserves fail_max, timeout_duration and the
name. -/
theorem breakerCall_preserves_config {α : Type} (b : CircuitBreaker)
    (now : Nat) (op : Unit → Except PyExc α) :
    (breakerCall b now op).breaker.failMax = b.failMax ∧
    (breakerCall b now op).breaker.timeoutDuration = b.timeoutDuration ∧
    (breakerCall b now op).breaker.name = b.name := by
  by_cases h1 : b.failMax ≤ b.failCounter + 1 <;>
  by_cases h2 : eligibleForProbe b now = true <;>
  cases hst : b.state <;> cases hop : op () <;>
    simp [breakerCall, hst, hop, h1, h2]

/-- The wrapper only ever updates the breaker through breaker.call. -/
theorem with_circuit_breaker_call_breaker {α : Type} (service_name : String)
    (fallback_value : Option α) (b : CircuitBreaker) (now : Nat)
    (op : Unit → Except PyExc α) :
    (with_circuit_breaker_call service_name fallback_value b now op).breaker
      = (breakerCall b now op).breaker := by
  cases hr : breakerCall b now op with
  | mk bb oc inv =>
    simp only [with_circuit_breaker_call, hr]
    cases oc <;> cases fallback_value <;> rfl

/-- The resilient wrapper only ever updates the breaker through
breaker.call. -/
theorem with_resilient_execution_call_breaker {α : Type}
    (service_name : String) (fallback_value recoverable_default : Option α)
    (b : CircuitBreaker) (now : Nat) (op : Unit → Except PyExc α) :
    (with_resilient_execution_call service_name fallback_value
      recoverable_default b now op).breaker
      = (breakerCall b now op).breaker := by
  cases hr : breakerCall b now op with
  | mk bb oc inv =>
    simp only [with_resilient_execution_call, hr]
    cases oc with
    | ok v => rfl
    | circuitBreakerError => cases fallback_value <;> rfl
    | opFail e =>
      cases hc : classifyError (α := α) service_name recoverable_default e
        <;> simp [hc]

/-- C7: every breaker is constructed with a failure threshold of 3 and a
reset timeout of 30 seconds fixed at construction, and no operation of this
layer (registry resolution, breaker calls, or either wrapper) ever changes
these configuration values. -/
theorem breaker_config_fixed_at_construction {α : Type} :
    (∀ n, (newCircuitBreaker n).failMax = 3
      ∧ (newCircuitBreaker n).timeoutDuration = 30) ∧
    (∀ (reg : Registry) n, lookupReg reg n = none →
      (get_circuit_breaker reg n).2 = newCircuitBreaker n) ∧
    (∀ (b : CircuitBreaker) (now : Nat) (op : Unit → Except PyExc α),
      (breakerCall b now op).breaker.failMax = b.failMax
      ∧ (breakerCall b now op).breaker.timeoutDuration
          = b.timeoutDuration) ∧
    (∀ sn (fb : Option α) (b : CircuitBreaker) now op,
      (with_circuit_breaker_call sn fb b now op).breaker.failMax = b.failMax
      ∧ (with_circuit_breaker_call sn fb b now op).breaker.timeoutDuration
          = b.timeoutDuration) ∧
    (∀ sn (fb rd : Option α) (b : CircuitBreaker) now op,
      (with_resilient_execution_call sn fb rd b now op).breaker.failMax
          = b.failMax
      ∧ (with_resilient_execution_call sn fb rd b now
          op).breaker.timeoutDuration = b.timeoutDuration) := by
  refine ⟨fun n => ⟨rfl, rfl⟩, fun reg n h => by simp [get_circuit_breaker, h],
    fun b now op => ⟨(breakerCall_preserves_config b now op).1,
      (breakerCall_preserves_config b now op).2.1⟩,
    fun sn fb b now op => ?_, fun sn fb rd b now op => ?_⟩
  · rw [with_circuit_breaker_call_breaker]
    exact ⟨(breakerCall_preserves_config b now op).1,
      (breakerCall_preserves_config b now op).2.1⟩
  · rw [with_resilient_execution_call_breaker]
    exact ⟨(breakerCall_preserves_config b now op).1,
      (breakerCall_preserves_config b now op).2.1⟩

/-- Witness for C7: the breaker stored for a fresh name has threshold 3 and
timeout 30, and a wrapped failing call preserves both. -/
theorem breaker_config_fixed_at_construction_witness :
    (get_circuit_breaker [] "OpenMeter").2 = newCircuitBreaker "OpenMeter" ∧
    (with_circuit_breaker_call "OpenMeter" (none : Option Nat)
      (newCircuitBreaker "OpenMeter") 7
      (fun _ => .error (.raw .timeout "t"))).breaker.failMax = 3 := by
  have h := breaker_config_fixed_at_construction (α := Nat)
  exact ⟨h.2.1 [] "OpenMeter" rfl,
    (h.2.2.2.1 "OpenMeter" none (newCircuitBreaker "OpenMeter") 7
      (fun _ => .error (.raw .timeout "t"))).1⟩

/-- C9 counterexample: the registry accepts the empty string as a dependency
name: get_circuit_breaker stores a breaker under the key "" and returns
it. -/
theorem registry_accepts_empty_name :
    get_circuit_breaker [] ""
      = ([("", newCircuitBreaker "")], newCircuitBreaker "") ∧
    lookupReg (get_circuit_breaker [] "").1 ""
      = some (newCircuitBreaker "") := by
  constructor <;> rfl

/-- C9 amended: registry keys are case-sensitive — any two distinct names,
in particular names differing only in letter case, resolve to breakers that
carry different names and are therefore distinct instances — but the
registry performs no validation of the name and accepts the empty string,
storing and returning a breaker keyed by it. -/
theorem registry_keys_case_sensitive (s t : String) (hne : s ≠ t) :
    (get_circuit_breaker [] s).2.name = s ∧
    (get_circuit_breaker (get_circuit_breaker [] s).1 t).2.name = t ∧
    (get_circuit_breaker (get_circuit_breaker [] s).1 t).2
      ≠ (get_circuit_breaker [] s).2 ∧
    lookupReg (get_circuit_breaker [] "").1 ""
      = some (newCircuitBreaker "") := by
  have hwf : RegNamesConsistent [] := fun k b0 hk => by cases hk
  refine ⟨get_circuit_breaker_name [] s hwf,
    get_circuit_breaker_name _ t (get_circuit_breaker_consistent [] s hwf),
    ?_, rfl⟩
  intro heq
  have h1 := get_circuit_breaker_name [] s hwf
  have h2 := get_circuit_breaker_name (get_circuit_breaker [] s).1 t
    (get_circuit_breaker_consistent [] s hwf)
  rw [heq, h1] at h2
  exact hne h2

/-- Witness for the amended C9 with the names openmeter and OpenMeter,
which differ only in letter case. -/
theorem registry_keys_case_sensitive_witness :
    (get_circuit_breaker (get_circuit_breaker [] "openmeter").1
      "OpenMeter").2 ≠ (get_circuit_breaker [] "openmeter").2 :=
  (registry_keys_case_sensitive "openmeter" "OpenMeter"
    (by decide)).2.2.1

end BillingServices
